import Mathlib

/-!
Verification development for the Volume Profile Mean Reversion trading core:
the profile estimator (`calculate_volume_profile` / `_check_development`), the
lookback search and volatility gate of `generate_signals`, the entry logic of
`_check_entry_conditions` (all in `src/strategies/volume_profile_strategy.py`),
the exit evaluator `check_exit_conditions` of `src/agents/position_manager.py`,
and the per-symbol scan loop of `src/agents/strategy_agent.py`.

Modelling conventions:
* Prices and volumes are modelled as exact rationals (`ℚ`).
* `FV := Option ℚ` models a float that may be non-finite: `none` stands for an
  IEEE non-finite result (NaN, or an infinity created by a division by zero);
  `some q` is a finite value.  Arithmetic propagates `none`; comparisons on a
  `none` operand are `false`, exactly as NaN comparisons are in Python.
* Calls into numpy/pandas/scipy are embedded by their documented semantics on
  the values the source feeds them (bin assignment of `pd.cut`, first-index
  `idxmax`, moment-based skewness/kurtosis, rolling true-range mean).
* Square roots are irrational in general, so functions that need `np.sqrt` on
  a finite value take a parameter `sq : ℚ → ℚ` standing for the square root;
  every theorem below is independent of the values of `sq`.
-/

/-- Finite-or-not float value: `none` models an IEEE non-finite float (NaN, or
±∞ arising from a division by zero); `some q` a finite value, held exactly. -/
abbrev FV := Option ℚ

/-- Float addition, propagating non-finite operands. -/
def fadd : FV → FV → FV
  | some a, some b => some (a + b)
  | _, _ => none

/-- Float subtraction, propagating non-finite operands. -/
def fsub : FV → FV → FV
  | some a, some b => some (a - b)
  | _, _ => none

/-- Float multiplication, propagating non-finite operands. -/
def fmul : FV → FV → FV
  | some a, some b => some (a * b)
  | _, _ => none

/-- Float division: a zero divisor yields a non-finite result (NaN when the
numerator is also zero, ±∞ otherwise — both collapse to `none` here). -/
def fdivF : FV → FV → FV
  | some a, some b => if b = 0 then none else some (a / b)
  | _, _ => none

/-- Float absolute value. -/
def fabs : FV → FV
  | some a => some |a|
  | none => none

/-- Float `≤` comparison: `false` whenever an operand is non-finite NaN-like,
as in Python. -/
def fble : FV → FV → Bool
  | some a, some b => decide (a ≤ b)
  | _, _ => false

/-- Float `<` comparison: `false` whenever an operand is non-finite NaN-like. -/
def fblt : FV → FV → Bool
  | some a, some b => decide (a < b)
  | _, _ => false

/-- Python's `max(0, v)`: iterating `max` keeps the running value `0` when the
comparison `v > 0` is `False`, so `max(0, nan)` (and `max(0, -inf)`) is `0`. -/
def fmax0 : FV → ℚ
  | some a => max 0 a
  | none => 0

/-- `np.sqrt` through the supplied square-root oracle `sq`; non-finite and
negative inputs give NaN. -/
def fsqrtW (sq : ℚ → ℚ) : FV → FV
  | some a => if a < 0 then none else some (sq a)
  | none => none

/-- One OHLCV candle.  The `open` price and the timestamp are carried by the
source data frame but never read by the embedded logic, so they are omitted. -/
structure Candle where
  high : ℚ
  low : ℚ
  close : ℚ
  volume : ℚ
deriving DecidableEq

/-- Sum of a list of rationals (pandas `.sum()`). -/
def qsum (l : List ℚ) : ℚ := l.foldl (· + ·) 0

/-- Minimum of a list (pandas `.min()`); `0` on the empty list, which every
caller below excludes. -/
def list_min : List ℚ → ℚ
  | [] => 0
  | x :: xs => xs.foldl min x

/-- Maximum of a list (pandas `.max()`); `0` on the empty list, which every
caller below excludes. -/
def list_max : List ℚ → ℚ
  | [] => 0
  | x :: xs => xs.foldl max x

/-! ## Exit evaluator (`PositionManager.check_exit_conditions`) -/

/-- The fields of a stored open position read by `check_exit_conditions`.
`none` models a SQL `NULL`; Python truthiness treats both `None` and `0` as
falsy.  The row's `exit_conditions` JSON blob is parsed by the source but its
parse result is never used, so it is not modelled (the system itself writes it
with `json.dumps`, so the parse succeeds for every stored position). -/
structure Position where
  action : String
  take_profit : Option ℚ
  stop_loss : Option ℚ
  timeout_candles : Option ℤ
deriving DecidableEq

/-- Python truthiness of an optional float: falsy iff `None` or `0`. -/
def truthyQ : Option ℚ → Bool
  | none => false
  | some x => decide (x ≠ 0)

/-- Python truthiness of an optional integer: falsy iff `None` or `0`. -/
def truthyZ : Option ℤ → Bool
  | none => false
  | some x => decide (x ≠ 0)

/-- The take-profit test of `check_exit_conditions`: guarded by truthiness of
`take_profit`; LONG exits when price rose to the target, SHORT when it fell. -/
def tp_hit (p : Position) (current_price : ℚ) : Bool :=
  truthyQ p.take_profit &&
    ((p.action == "LONG" && decide (p.take_profit.getD 0 ≤ current_price)) ||
     (p.action == "SHORT" && decide (current_price ≤ p.take_profit.getD 0)))

/-- The stop-loss test of `check_exit_conditions`. -/
def sl_hit (p : Position) (current_price : ℚ) : Bool :=
  truthyQ p.stop_loss &&
    ((p.action == "LONG" && decide (current_price ≤ p.stop_loss.getD 0)) ||
     (p.action == "SHORT" && decide (p.stop_loss.getD 0 ≤ current_price)))

/-- The timeout test of `check_exit_conditions`: guarded by truthiness of
`timeout_candles`. -/
def timeout_hit (p : Position) (candles_held : ℤ) : Bool :=
  truthyZ p.timeout_candles && decide (p.timeout_candles.getD 0 ≤ candles_held)

/-- `PositionManager.check_exit_conditions`: the nested early-return structure
of the source flattened into first-match order — take-profit, then stop-loss,
then timeout, else no exit `(False, None)`. -/
def check_exit_conditions (p : Position) (current_price : ℚ) (candles_held : ℤ) :
    Bool × Option String :=
  if tp_hit p current_price then (true, some "take_profit")
  else if sl_hit p current_price then (true, some "stop_loss")
  else if timeout_hit p candles_held then (true, some "timeout")
  else (false, none)

/-! ## Profile estimator (`calculate_volume_profile` and `_check_development`) -/

/-- Bin index that `pd.cut(x, bins=edges, labels=False, include_lowest=True)`
assigns to `c`, where the `numBins + 1` edges partition `[lo, hi]` into
`numBins` equal right-closed intervals (`np.linspace(lo, hi, numBins + 1)`);
`include_lowest` puts a value equal to the lowest edge into bin 0, and values
outside `[lo, hi]` get `NaN` (here `none`). -/
def cut_bin (lo hi : ℚ) (numBins : ℕ) (c : ℚ) : Option ℕ :=
  if c < lo ∨ hi < c then none
  else if c ≤ lo + (hi - lo) / numBins then some 0
  else some ((⌈(c - lo) * numBins / (hi - lo)⌉).toNat - 1)

/-- Summed volume of the candles whose close falls into bin `j`
(`data.groupby('price_bin')['volume'].sum()`). -/
def bin_volume (lo hi : ℚ) (numBins : ℕ) (data : List Candle) (j : ℕ) : ℚ :=
  qsum ((data.filter (fun c => cut_bin lo hi numBins c.close == some j)).map (·.volume))

/-- The bin labels that actually occur in the grouped series, in ascending
order: `groupby` over a plain column only produces observed groups. -/
def occupied_bins (lo hi : ℚ) (numBins : ℕ) (data : List Candle) : List ℕ :=
  (List.range numBins).filter (fun j => data.any (fun c => cut_bin lo hi numBins c.close == some j))

/-- First index attaining the maximal value, scanning in list order
(pandas `idxmax`: ties keep the earliest index); `none` on an empty series,
where `idxmax` raises. -/
def argmax_first (f : ℕ → ℚ) : List ℕ → Option ℕ
  | [] => none
  | j :: rest => some (rest.foldl (fun b k => if f b < f k then k else b) j)

/-- Closes column of a slice. -/
def closes (data : List Candle) : List ℚ := data.map (·.close)

/-- Central moment of order `k` about `m` (biased, divided by the sample
size), as used by `scipy.stats.skew` / `scipy.stats.kurtosis`. -/
def moment (xs : List ℚ) (m : ℚ) (k : ℕ) : ℚ :=
  qsum (xs.map (fun x => (x - m) ^ k)) / xs.length

/-- `scipy.stats.skew`: `m3 / m2 ^ 1.5`, embedded as `m3 / (m2 * sqrt m2)`
through the square-root oracle `sq`; a constant (or empty) sample has `m2 = 0`
and yields NaN. -/
def skew_fv (sq : ℚ → ℚ) (xs : List ℚ) : FV :=
  if xs.length = 0 then none
  else
    let m := qsum xs / xs.length
    let m2 := moment xs m 2
    let m3 := moment xs m 3
    if m2 = 0 then none else some (m3 / (m2 * sq m2))

/-- `scipy.stats.kurtosis(..., fisher=False)` (Pearson): `m4 / m2 ^ 2`; a
constant (or empty) sample yields NaN. -/
def kurt_fv (xs : List ℚ) : FV :=
  if xs.length = 0 then none
  else
    let m := qsum xs / xs.length
    let m2 := moment xs m 2
    let m4 := moment xs m 4
    if m2 = 0 then none else some (m4 / (m2 * m2))

/-- The POC recomputed over the 10 most recent candles by
`recent_data.groupby(pd.cut(recent_data['close'], bins=20))['volume'].sum()`:
`pd.cut` with an integer bin count spans `[min close, max close]`, widening a
degenerate range by 0.1% of the value on each side, and otherwise lowering
only the first edge by 0.1% of the range so the minimum is included; grouping
by the resulting categorical produces all 20 bins (empty ones sum to 0), and
`idxmax` takes the first interval with maximal volume; the recent POC is that
interval's midpoint. -/
def recent_poc_calc (recent : List Candle) : ℚ :=
  let cs := closes recent
  let mn := list_min cs
  let mx := list_max cs
  let mn' : ℚ := if mn = mx then mn - (if mn ≠ 0 then |mn| / 1000 else 1 / 1000) else mn
  let mx' : ℚ := if mn = mx then mx + (if mx ≠ 0 then |mx| / 1000 else 1 / 1000) else mx
  let adj : ℚ := if mn = mx then 0 else (mx - mn) / 1000
  let step := (mx' - mn') / 20
  let binIdx : ℚ → ℕ := fun c =>
    if c ≤ mn' + step then 0 else (⌈(c - mn') * 20 / (mx' - mn')⌉).toNat - 1
  let vol : ℕ → ℚ := fun j =>
    qsum ((recent.filter (fun c => binIdx c.close == j)).map (·.volume))
  let poc_idx := ((List.range 20).drop 1).foldl (fun b k => if vol b < vol k then k else b) 0
  let left : ℚ := if poc_idx = 0 then mn' - adj else mn' + poc_idx * step
  let right : ℚ := mn' + (poc_idx + 1) * step
  (left + right) / 2

/-- Sub-score 1 of `_check_development`: POC drift over the last 10 candles,
relative to the full-window POC; a window shorter than 10 candles scores a
neutral 50.  A zero `poc` makes the relative drift non-finite, and a NaN-like
drift falls into the penalty branch where Python's `max(0, nan)` is `0`. -/
def dev_score_drift (data : List Candle) (poc : ℚ) : ℚ :=
  if 10 ≤ data.length then
    let recent := data.drop (data.length - 10)
    let drift := fmul (fdivF (fabs (fsub (some (recent_poc_calc recent)) (some poc))) (some poc)) (some 100)
    if fblt drift (some (3 / 10)) then 100
    else fmax0 (fsub (some 100) (fmul (fsub drift (some (3 / 10))) (some 200)))
  else 50

/-- Sub-score 2 of `_check_development`: skewness of the closes. -/
def dev_score_skew (sq : ℚ → ℚ) (data : List Candle) : ℚ :=
  let sk := fabs (skew_fv sq (closes data))
  if fble sk (some (1 / 4)) then 100
  else fmax0 (fsub (some 100) (fmul (fsub sk (some (1 / 4))) (some 200)))

/-- Sub-score 3 of `_check_development`: Pearson kurtosis of the closes. -/
def dev_score_kurt (data : List Candle) : ℚ :=
  let ku := kurt_fv (closes data)
  if fble (some (5 / 2)) ku && fble ku (some (7 / 2)) then 100
  else fmax0 (fsub (some 100) (fmul (fabs (fsub ku (some 3))) (some 50)))

/-- Sub-score 4 of `_check_development`: share of closes inside the ±1σ value
area recomputed from the passed mean and std; comparisons against a NaN bound
are `False`, so a NaN value area counts no closes. -/
def dev_score_va (data : List Candle) (mean std : FV) : ℚ :=
  let va_high := fadd mean std
  let va_low := fsub mean std
  let within := (closes data).countP (fun c => fble va_low (some c) && fble (some c) va_high)
  let coverage := (within : ℚ) / (data.length : ℚ) * 100
  if 65 ≤ coverage then 100 else coverage * (100 / 65)

/-- The four sub-scores accumulated by `_check_development`. -/
def dev_scores (sq : ℚ → ℚ) (data : List Candle) (poc : ℚ) (mean std : FV) : List ℚ :=
  [dev_score_drift data poc, dev_score_skew sq data, dev_score_kurt data, dev_score_va data mean std]

/-- `VolumeProfileStrategy._check_development`: average the four sub-scores
and flag the profile developed when the quality score reaches 70. -/
def check_development (sq : ℚ → ℚ) (data : List Candle) (poc : ℚ) (mean std : FV) :
    Bool × ℚ :=
  let scores := dev_scores sq data poc mean std
  let quality_score := qsum scores / scores.length
  (decide (70 ≤ quality_score), quality_score)

/-- The dictionary built by `calculate_volume_profile`.  The POC is always a
finite number (bin midpoints are), while the volume-weighted statistics can be
non-finite when the slice's total volume is zero. -/
structure ProfileF where
  poc : ℚ
  value_area_high : FV
  value_area_low : FV
  sigma_2_high : FV
  sigma_2_low : FV
  mean_price : FV
  std_price : FV
  developed : Bool
  development_score : ℚ
  lookback : ℕ
  num_candles : ℕ
deriving DecidableEq

/-- `VolumeProfileStrategy.calculate_volume_profile`.  `none` models the
source's `return None`, reached when the frame is shorter than the lookback or
when an exception is raised and caught: `pd.cut` raises when there are fewer
than two strictly increasing edges (`num_bins = 0`, or a flat price range),
and `idxmax` raises on an empty grouped series (no close inside the range).
A zero total volume raises nothing: numpy's `0.0 / 0.0` quietly returns NaN,
which flows into the mean, std and the value-area bounds. -/
def calculate_volume_profile (sq : ℚ → ℚ) (df : List Candle) (lookback : ℕ) :
    Option ProfileF :=
  if df.length < lookback then none
  else
    let data := df.drop (df.length - lookback)
    let num_bins := min 50 (data.length / 2)
    let lo := list_min (data.map (·.low))
    let hi := list_max (data.map (·.high))
    if num_bins = 0 ∨ ¬ lo < hi then none
    else
      match argmax_first (bin_volume lo hi num_bins data) (occupied_bins lo hi num_bins data) with
      | none => none
      | some poc_bin =>
        let bin_size := (hi - lo) / num_bins
        let poc_price := lo + poc_bin * bin_size + bin_size / 2
        let total_volume := qsum (data.map (·.volume))
        let mean_price := fdivF (some (qsum (data.map (fun c => c.close * c.volume)))) (some total_volume)
        let variance : FV :=
          match mean_price with
          | none => none
          | some m => fdivF (some (qsum (data.map (fun c => (c.close - m) ^ 2 * c.volume)))) (some total_volume)
        let std_price := fsqrtW sq variance
        let dev := check_development sq data poc_price mean_price std_price
        some
          { poc := poc_price
            value_area_high := fadd mean_price std_price
            value_area_low := fsub mean_price std_price
            sigma_2_high := fadd mean_price (fmul (some 2) std_price)
            sigma_2_low := fsub mean_price (fmul (some 2) std_price)
            mean_price := mean_price
            std_price := std_price
            developed := dev.1
            development_score := dev.2
            lookback := lookback
            num_candles := data.length }

/-! ## Signal generator (`generate_signals`, `_check_entry_conditions`) -/

/-- Leverage floor from `src/config.py` (`HYPERLIQUID_MIN_LEVERAGE = 2`). -/
def HYPERLIQUID_MIN_LEVERAGE : ℤ := 2

/-- Leverage cap from `src/config.py` (`HYPERLIQUID_MAX_LEVERAGE = 20`). -/
def HYPERLIQUID_MAX_LEVERAGE : ℤ := 20

/-- The constructor parameters of `VolumeProfileStrategy` that the embedded
logic reads. -/
structure StrategyConfig where
  symbol : String
  timeframe : String
  lookback_min : ℕ
  lookback_max : ℕ
  tp_fraction : ℚ
  atr_min : ℚ
  atr_max : ℚ
  timeout_candles : ℕ
deriving DecidableEq

/-- The constructor defaults of `VolumeProfileStrategy`, which coincide with
the `VP_*` values the strategy agent passes from `src/config.py`. -/
def defaultConfig : StrategyConfig :=
  ⟨"BTC", "1m", 50, 120, 9 / 10, 3 / 20, 11 / 20, 15⟩

/-- A volume profile seen by the search and entry logic, with every numeric
field finite; `calculate_volume_profile`'s NaN-carrying degenerate output is
treated separately through `ProfileF`. -/
structure ProfileQ where
  poc : ℚ
  value_area_high : ℚ
  value_area_low : ℚ
  sigma_2_high : ℚ
  sigma_2_low : ℚ
  mean_price : ℚ
  std_price : ℚ
  developed : Bool
  development_score : ℚ
  lookback : ℕ
deriving DecidableEq

/-- The signal dictionary.  `none` in `atr_percent` / `risk_reward` /
`entry_level` / `timeout_candles` models a key that is absent from the dict (a
NEUTRAL signal carries none of them); the free-text `reasoning` of LONG/SHORT
signals is an interpolated diagnostic sentence and is modelled as `""`. -/
structure SignalQ where
  symbol : String
  direction : String
  confidence : ℚ
  entry_price : ℚ
  target_price : ℚ
  stop_loss : ℚ
  leverage : ℤ
  timeframe : String
  volume_profile : Option ProfileQ
  atr_percent : Option ℚ
  risk_reward : Option ℚ
  reasoning : String
  entry_level : Option String
  timeout_candles : Option ℕ
deriving DecidableEq

/-- `VolumeProfileStrategy._neutral_signal`: the deliberate "no trade" result,
with zeroed price fields and leverage 1. -/
def neutral_signal (cfg : StrategyConfig) (reason : String) : SignalQ :=
  { symbol := cfg.symbol, direction := "NEUTRAL", confidence := 0, entry_price := 0,
    target_price := 0, stop_loss := 0, leverage := 1, timeframe := cfg.timeframe,
    volume_profile := none, atr_percent := none, risk_reward := none,
    reasoning := reason, entry_level := none, timeout_candles := none }

/-- Python's `int()` on a float: truncation toward zero. -/
def int_trunc (q : ℚ) : ℤ := if 0 ≤ q then ⌊q⌋ else ⌈q⌉

/-- `VolumeProfileStrategy._check_entry_conditions`.  The source's nested
`if current_low <= va_low: if va_low <= close <= va_high:` early-return blocks
are flattened: a wick through −1σ whose close is back inside the value area
is a LONG, else a wick through +1σ closing back inside is a SHORT, else the
waiting NEUTRAL signal.  `prev_close` is received but never read by the
source.  The literals `1/400` and `3/2000` are the source's `0.0025` and
`0.0015` stop buffers. -/
def check_entry_conditions (cfg : StrategyConfig) (current_price current_low current_high prev_close : ℚ)
    (profile : ProfileQ) (atr_percent : ℚ) : SignalQ :=
  if current_low ≤ profile.value_area_low ∧
      (profile.value_area_low ≤ current_price ∧ current_price ≤ profile.value_area_high) then
    let entry_level := if current_low ≤ profile.sigma_2_low then "2σ" else "1σ"
    let stop_loss :=
      if current_low ≤ profile.sigma_2_low then
        profile.sigma_2_low - profile.sigma_2_low * (1 / 400)
      else profile.sigma_2_low - profile.value_area_low * (3 / 2000)
    let target_price := current_price + |profile.poc - current_price| * cfg.tp_fraction
    let risk := current_price - stop_loss
    let reward := target_price - current_price
    let risk_reward := if 0 < risk then reward / risk else 0
    let leverage := min 20 (max 2 (int_trunc (risk_reward * 3)))
    { symbol := cfg.symbol, direction := "LONG", confidence := profile.development_score,
      entry_price := current_price, target_price := target_price, stop_loss := stop_loss,
      leverage := leverage, timeframe := cfg.timeframe, volume_profile := some profile,
      atr_percent := some atr_percent, risk_reward := some risk_reward, reasoning := "",
      entry_level := some entry_level, timeout_candles := some cfg.timeout_candles }
  else if profile.value_area_high ≤ current_high ∧
      (profile.value_area_low ≤ current_price ∧ current_price ≤ profile.value_area_high) then
    let entry_level := if profile.sigma_2_high ≤ current_high then "2σ" else "1σ"
    let stop_loss :=
      if profile.sigma_2_high ≤ current_high then
        profile.sigma_2_high + profile.sigma_2_high * (1 / 400)
      else profile.sigma_2_high + profile.value_area_high * (3 / 2000)
    let target_price := current_price - |current_price - profile.poc| * cfg.tp_fraction
    let risk := stop_loss - current_price
    let reward := current_price - target_price
    let risk_reward := if 0 < risk then reward / risk else 0
    let leverage := min 20 (max 2 (int_trunc (risk_reward * 3)))
    { symbol := cfg.symbol, direction := "SHORT", confidence := profile.development_score,
      entry_price := current_price, target_price := target_price, stop_loss := stop_loss,
      leverage := leverage, timeframe := cfg.timeframe, volume_profile := some profile,
      atr_percent := some atr_percent, risk_reward := some risk_reward, reasoning := "",
      entry_level := some entry_level, timeout_candles := some cfg.timeout_candles }
  else neutral_signal cfg "Waiting for mean reversion setup"

/-! ## Lookback search and volatility gate (`generate_signals`) -/

/-- The lookback loop of `generate_signals`, scanning candidate profiles in
order and keeping the first developed profile whose score strictly exceeds
the best score so far (initially 0); `None` profiles are skipped. -/
def search_loop : List (Option ProfileQ) → Option ProfileQ → ℚ → Option ProfileQ
  | [], best, _ => best
  | p? :: rest, best, best_score =>
    match p? with
    | some p =>
      if p.developed = true ∧ best_score < p.development_score then
        search_loop rest (some p) p.development_score
      else search_loop rest best best_score
    | none => search_loop rest best best_score

/-- The lookback search started from `best_profile = None, best_score = 0`. -/
def search_best (candidates : List (Option ProfileQ)) : Option ProfileQ :=
  search_loop candidates none 0

/-- Python's `range(a, b, step)` for a positive step. -/
def pyRange (a b step : ℕ) : List ℕ := List.range' a ((b - a + step - 1) / step) step

/-- The lookbacks evaluated by `generate_signals`:
`range(self.lookback_min, self.lookback_max + 1, 10)`. -/
def lookback_candidates (cfg : StrategyConfig) : List ℕ :=
  pyRange cfg.lookback_min (cfg.lookback_max + 1) 10

/-- True-range series: the first row's shifted terms are NaN, so its row-wise
`max` (which skips NaN) is just `high - low`. -/
def true_ranges : Option ℚ → List Candle → List ℚ
  | _, [] => []
  | prev, c :: rest =>
    (match prev with
     | none => c.high - c.low
     | some pc => max (c.high - c.low) (max |c.high - pc| |c.low - pc|)) :: true_ranges (some c.close) rest

/-- `VolumeProfileStrategy.calculate_atr` with its default 14-candle period:
mean of the last 14 true ranges as a percentage of the last close.  An empty
frame raises `IndexError` at `iloc[-1]` and the handler returns `0`; fewer
than 14 candles leave the rolling mean NaN, which propagates. -/
def calculate_atr (df : List Candle) : FV :=
  match df.getLast? with
  | none => some 0
  | some last =>
    if df.length < 14 then none
    else
      let trs := true_ranges none df
      let atr := qsum (trs.drop (trs.length - 14)) / 14
      fmul (fdivF (some atr) (some last.close)) (some 100)

/-- The volatility gate of `generate_signals`: Python's chained
`self.atr_min <= atr_percent <= self.atr_max`, `False` on NaN. -/
def atr_in_band (cfg : StrategyConfig) (a : FV) : Bool :=
  fble (some cfg.atr_min) a && fble a (some cfg.atr_max)

/-- `VolumeProfileStrategy.generate_signals`.  The market-data fetch is the
injected `df?` (`None` models a failed fetch); the per-lookback profile
estimation is the injected `pf`, matching the source's call of its own
`calculate_volume_profile` method.  `none` is the source's `return None`:
missing data, too few candles, or the `iloc[-2]` `IndexError` caught by the
handler. -/
def generate_signals (cfg : StrategyConfig) (pf : List Candle → ℕ → Option ProfileQ)
    (df? : Option (List Candle)) : Option SignalQ :=
  match df? with
  | none => none
  | some df =>
    if df.length < cfg.lookback_max then none
    else
      match calculate_atr df with
      | none => some (neutral_signal cfg "ATR outside optimal range")
      | some a =>
        if ¬ (cfg.atr_min ≤ a ∧ a ≤ cfg.atr_max) then
          some (neutral_signal cfg "ATR outside optimal range")
        else
          match search_best ((lookback_candidates cfg).map (pf df)) with
          | none => some (neutral_signal cfg "Volume profile not developed")
          | some best_profile =>
            match df.reverse with
            | current :: prev :: _ =>
              some (check_entry_conditions cfg current.close current.low current.high prev.close
                best_profile a)
            | _ => none

/-! ## Scan cycle (`StrategyAgent.run`) -/

/-- Python's `max(signals, key=lambda x: x['confidence'])`: scan left to
right, replacing the running best only on a strictly greater key, so ties
keep the earliest signal. -/
def max_by_confidence (first : SignalQ) (rest : List SignalQ) : SignalQ :=
  rest.foldl (fun best s => if best.confidence < s.confidence then s else best) first

/-- One symbol's iteration of the scan loop in `StrategyAgent.run`: skip the
symbol entirely when the database already holds an open position for it;
otherwise collect the non-NEUTRAL signals over the timeframes (a `None`
signal, or one raising inside `generate_signals`, is skipped), and append the
highest-confidence signal to `all_signals` — the source appends it twice, at
lines 106 and 115. -/
def scan_symbol (has_open : Bool) (tf_signals : List (Option SignalQ)) : List SignalQ :=
  if has_open then []
  else
    match (tf_signals.filterMap id).filter (fun s => s.direction != "NEUTRAL") with
    | [] => []
    | s :: rest =>
      let best := max_by_confidence s rest
      [best, best]

/-- The full scan cycle of `StrategyAgent.run`: fold the per-symbol emissions
into `all_signals`, with the open-position lookup and the per-timeframe
signal generation injected. -/
def run_scan (has_open : String → Bool) (signals_for : String → List (Option SignalQ))
    (symbols : List String) : List SignalQ :=
  symbols.foldl (fun acc sym => acc ++ scan_symbol (has_open sym) (signals_for sym)) []


/-! ## Claims -/

/-! ### Concrete instances used by the claim theorems -/

/-- A two-candle slice whose total volume is zero (the closes differ, so no
unrelated degeneracy interferes with the binning). -/
def zv_df : List Candle := [⟨102, 98, 99, 0⟩, ⟨103, 97, 101, 0⟩]

/-- The profile the estimator returns on `zv_df`: POC 100, every
volume-weighted statistic NaN, quality score 37.5. -/
def zv_profile : ProfileF := ⟨100, none, none, none, none, none, none, false, 75 / 2, 2, 2⟩

/-- A concrete LONG position carrying the spec's scenario exit levels. -/
def scenPos : Position := ⟨"LONG", some 45200, some 44700, some 15⟩

/-- A position whose take-profit is stored as `0` and whose stop-loss is
`NULL`: both price checks are disabled. -/
def falsyPos : Position := ⟨"LONG", some 0, none, some 15⟩

/-- The claim's leverage formula, written exactly as the spec states it:
`clamp(round(risk_reward × 3), min_leverage, max_leverage)`. -/
def leverage_round_clamp (rr : ℚ) : ℤ :=
  min HYPERLIQUID_MAX_LEVERAGE (max HYPERLIQUID_MIN_LEVERAGE (round (rr * 3)))

/-- A developed profile whose geometry produces `risk_reward × 3 ≈ 2.69` on a
LONG entry at price 100 with low 90. -/
def cexProfile : ProfileQ := ⟨150, 200, 100, 250, 50, 150, 50, true, 80, 50⟩

/-- The spec's LONG scenario profile: POC 45100, value area
`[44900, 45300]`, ±2σ band `[44600, 45600]`. -/
def scenProfile : ProfileQ := ⟨45100, 45300, 44900, 45600, 44600, 45100, 200, true, 80, 50⟩

/-- A developed profile used to instantiate the lookback-search theorem. -/
def devProfile : ProfileQ := ⟨100, 110, 90, 120, 80, 100, 10, true, 80, 50⟩

/-- A non-NEUTRAL signal fed to the scan-cycle embedding. -/
def dup_signal : SignalQ :=
  { symbol := "BTC", direction := "LONG", confidence := 80, entry_price := 100,
    target_price := 110, stop_loss := 95, leverage := 5, timeframe := "1m",
    volume_profile := none, atr_percent := some (1 / 5), risk_reward := some 2,
    reasoning := "", entry_level := some "1σ", timeout_candles := some 15 }

/-- A strategy configuration with a small `lookback_max`, so the volatility
gate can be exercised on a short concrete frame. -/
def gateConfig : StrategyConfig := ⟨"BTC", "1m", 5, 14, 9 / 10, 3 / 20, 11 / 20, 15⟩

/-- A flat 14-candle frame: every true range is 0, so the ATR percentage is 0,
strictly below `atr_min`. -/
def flat_df : List Candle := List.replicate 14 ⟨1, 1, 1, 1⟩

/-- A 14-candle frame whose true range is 0.2% of price each candle, so the
ATR percentage (0.2) lies inside the default band `[0.15, 0.55]`. -/
def band_df : List Candle := List.replicate 14 ⟨1 + 1 / 500, 1, 1, 1⟩

/-! ### Claim theorems -/

/-- C1.  The claim states that a slice with zero total volume makes
`calculate_volume_profile` return an insufficient-data rejection and never a
profile containing NaN.  The code does the opposite: numpy's `0.0 / 0.0`
returns NaN without raising, so the `except`/`return None` path is not taken
and a profile dictionary is returned whose `mean_price`, `std_price` and
value-area bounds are all NaN (`none` in the embedding), as this evaluation
at a concrete zero-volume slice shows. -/
theorem c1_zero_volume_profile_is_nan_not_rejected :
    calculate_volume_profile id zv_df 2 = some zv_profile ∧
    qsum (zv_df.map (·.volume)) = 0 ∧
    zv_profile.mean_price = none ∧ zv_profile.std_price = none ∧
    zv_profile.value_area_low = none ∧ zv_profile.value_area_high = none := by
  refine ⟨?_, ?_, rfl, rfl, rfl, rfl⟩
  · norm_num [calculate_volume_profile, zv_df, zv_profile, list_min, list_max, occupied_bins,
      bin_volume, cut_bin, argmax_first, qsum, check_development, dev_scores, dev_score_drift,
      dev_score_skew, dev_score_kurt, dev_score_va, skew_fv, kurt_fv, moment, closes, fmax0,
      fble, fblt, fabs, fadd, fsub, fmul, fdivF, fsqrtW, List.filter, List.range, List.range']
  · norm_num [zv_df, qsum]

/-- C2.  With truthy `take_profit`, `stop_loss` and `timeout_candles`, the
exit checks run in the fixed order take-profit, stop-loss, timeout, and only
the first match is reported: a hit take-profit always wins (even when the
timeout also holds), a missed take-profit with a hit stop-loss reports
"stop_loss", and when neither price trigger matched, `candles_held` at or
past the timeout reports "timeout" — in particular for a price strictly
between stop and target in either direction. -/
theorem c2_exit_priority (p : Position) (price : ℚ) (held : ℤ)
    (htp : truthyQ p.take_profit = true) (hsl : truthyQ p.stop_loss = true)
    (hto : truthyZ p.timeout_candles = true) :
    (tp_hit p price = true → check_exit_conditions p price held = (true, some "take_profit")) ∧
    (tp_hit p price = false → sl_hit p price = true →
      check_exit_conditions p price held = (true, some "stop_loss")) ∧
    (tp_hit p price = false → sl_hit p price = false → p.timeout_candles.getD 0 ≤ held →
      check_exit_conditions p price held = (true, some "timeout")) ∧
    (p.action = "LONG" → p.stop_loss.getD 0 < price → price < p.take_profit.getD 0 →
      p.timeout_candles.getD 0 ≤ held →
      check_exit_conditions p price held = (true, some "timeout")) ∧
    (p.action = "SHORT" → p.take_profit.getD 0 < price → price < p.stop_loss.getD 0 →
      p.timeout_candles.getD 0 ≤ held →
      check_exit_conditions p price held = (true, some "timeout")) := by
  refine ⟨?_, ?_, ?_, ?_, ?_⟩
  · intro h1
    simp [check_exit_conditions, h1]
  · intro h1 h2
    simp [check_exit_conditions, h1, h2]
  · intro h1 h2 h3
    simp [check_exit_conditions, h1, h2, timeout_hit, hto, h3]
  · intro ha h1 h2 h3
    have htp' : tp_hit p price = false := by
      simp [tp_hit, ha, not_le.mpr h2]
    have hsl' : sl_hit p price = false := by
      simp [sl_hit, ha, not_le.mpr h1]
    simp [check_exit_conditions, htp', hsl', timeout_hit, hto, h3]
  · intro ha h1 h2 h3
    have htp' : tp_hit p price = false := by
      simp [tp_hit, ha, not_le.mpr h1]
    have hsl' : sl_hit p price = false := by
      simp [sl_hit, ha, not_le.mpr h2]
    simp [check_exit_conditions, htp', hsl', timeout_hit, hto, h3]

/-- Witness for C2: at `take_profit = 45200`, `stop_loss = 44700`,
`timeout_candles = 15`, a price of 45210 with 20 candles held exits as
"take_profit", and a price of 45000 (strictly between stop and target) with
exactly 15 candles held exits as "timeout". -/
theorem c2_exit_priority_witness :
    truthyQ scenPos.take_profit = true ∧
    check_exit_conditions scenPos 45210 20 = (true, some "take_profit") ∧
    check_exit_conditions scenPos 45000 15 = (true, some "timeout") :=
  ⟨by norm_num [truthyQ, scenPos],
   (c2_exit_priority scenPos 45210 20 (by norm_num [truthyQ, scenPos])
       (by norm_num [truthyQ, scenPos]) (by norm_num [truthyZ, scenPos])).1
     (by norm_num [tp_hit, truthyQ, scenPos]),
   (c2_exit_priority scenPos 45000 15 (by norm_num [truthyQ, scenPos])
       (by norm_num [truthyQ, scenPos]) (by norm_num [truthyZ, scenPos])).2.2.2.1 rfl
     (by norm_num [scenPos]) (by norm_num [scenPos]) (by norm_num [scenPos])⟩

/-- C10.  A falsy (`None` or `0`) stored `take_profit` disables the
take-profit check for every price, a falsy `stop_loss` likewise disables the
stop-loss check, and with both falsy the evaluation can only time out or
report no exit. -/
theorem c10_falsy_levels_disable_checks (p : Position) (price : ℚ) (held : ℤ) :
    (truthyQ p.take_profit = false → (check_exit_conditions p price held).2 ≠ some "take_profit") ∧
    (truthyQ p.stop_loss = false → (check_exit_conditions p price held).2 ≠ some "stop_loss") ∧
    (truthyQ p.take_profit = false → truthyQ p.stop_loss = false →
      check_exit_conditions p price held = (true, some "timeout") ∨
      check_exit_conditions p price held = (false, none)) := by
  refine ⟨?_, ?_, ?_⟩
  · intro h1
    have e1 : tp_hit p price = false := by simp [tp_hit, h1]
    simp only [check_exit_conditions, e1, Bool.false_eq_true, if_false]
    split
    · simp
    · split <;> simp
  · intro h1
    have e2 : sl_hit p price = false := by simp [sl_hit, h1]
    simp only [check_exit_conditions, e2, Bool.false_eq_true, if_false]
    split
    · simp
    · split <;> simp
  · intro h1 h2
    have e1 : tp_hit p price = false := by simp [tp_hit, h1]
    have e2 : sl_hit p price = false := by simp [sl_hit, h2]
    simp only [check_exit_conditions, e1, e2, Bool.false_eq_true, if_false]
    split <;> simp

/-- Witness for C10: `falsyPos` never exits on take-profit or stop-loss, even
at a price far above its (zeroed) target. -/
theorem c10_falsy_levels_disable_checks_witness :
    (check_exit_conditions falsyPos 99999 0).2 ≠ some "take_profit" ∧
    (check_exit_conditions falsyPos 99999 0).2 ≠ some "stop_loss" ∧
    (check_exit_conditions falsyPos 99999 0 = (true, some "timeout") ∨
      check_exit_conditions falsyPos 99999 0 = (false, none)) :=
  ⟨(c10_falsy_levels_disable_checks falsyPos 99999 0).1 (by norm_num [truthyQ, falsyPos]),
   (c10_falsy_levels_disable_checks falsyPos 99999 0).2.1 (by norm_num [truthyQ, falsyPos]),
   (c10_falsy_levels_disable_checks falsyPos 99999 0).2.2 (by norm_num [truthyQ, falsyPos])
     (by norm_num [truthyQ, falsyPos])⟩

/-- Facts about the source's leverage clamp `min(20, max(2, x))`. -/
theorem clamp_leverage_facts (x : ℤ) :
    2 ≤ min 20 (max 2 x) ∧ min 20 (max 2 x) ≤ 20 ∧ (x ≤ 0 → min 20 (max 2 x) = 2) :=
  ⟨le_min (by norm_num) (le_max_left _ _), min_le_left _ _,
   fun hx => by rw [max_eq_left (hx.trans (by norm_num)), min_eq_right (by norm_num)]⟩

/-- Truncation toward zero of a nonpositive rational is nonpositive. -/
theorem int_trunc_nonpos {q : ℚ} (hq : q ≤ 0) : int_trunc q ≤ 0 := by
  unfold int_trunc
  split
  · have h0 : q = 0 := le_antisymm hq (by assumption)
    simp [h0]
  · exact Int.ceil_le.mpr (by exact_mod_cast hq)

/-- C4 (amended).  Every LONG or SHORT signal's leverage is
`clamp(trunc(risk_reward × 3), 2, 20)` where `trunc` is Python's `int()`
truncation toward zero — not `round` as the claim stated — and a
non-positive `risk_reward` (including the `risk ≤ 0 ⇒ risk_reward = 0` case)
always yields the minimum leverage 2. -/
theorem c4_leverage_truncates_not_rounds (cfg : StrategyConfig)
    (price low high prev atr : ℚ) (profile : ProfileQ)
    (h : (check_entry_conditions cfg price low high prev profile atr).direction ≠ "NEUTRAL") :
    ∃ rr, (check_entry_conditions cfg price low high prev profile atr).risk_reward = some rr ∧
      (check_entry_conditions cfg price low high prev profile atr).leverage =
        min 20 (max 2 (int_trunc (rr * 3))) ∧
      HYPERLIQUID_MIN_LEVERAGE ≤ (check_entry_conditions cfg price low high prev profile atr).leverage ∧
      (check_entry_conditions cfg price low high prev profile atr).leverage ≤ HYPERLIQUID_MAX_LEVERAGE ∧
      (rr ≤ 0 →
        (check_entry_conditions cfg price low high prev profile atr).leverage =
          HYPERLIQUID_MIN_LEVERAGE) := by
  unfold check_entry_conditions at h ⊢
  split_ifs at h ⊢ with h1 h2 h3 h4 <;>
    first
      | exact ⟨_, rfl, rfl, (clamp_leverage_facts _).1, (clamp_leverage_facts _).2.1,
          fun hrr => (clamp_leverage_facts _).2.2 (int_trunc_nonpos (by linarith))⟩
      | exact absurd (by simp [neutral_signal]) h


/-- Counterexample to C4 as stated: on this LONG setup `risk_reward` is
`900/1003`, so `risk_reward × 3 = 2700/1003 ≈ 2.69`; Python's `int()`
truncates it to 2 and the source emits leverage 2, while the claim's
`clamp(round(risk_reward × 3), 2, 20)` is 3. -/
theorem c4_round_formula_counterexample :
    (check_entry_conditions defaultConfig 100 90 100 100 cexProfile (1 / 5)).direction = "LONG" ∧
    (check_entry_conditions defaultConfig 100 90 100 100 cexProfile (1 / 5)).risk_reward =
      some (900 / 1003) ∧
    (check_entry_conditions defaultConfig 100 90 100 100 cexProfile (1 / 5)).leverage = 2 ∧
    leverage_round_clamp (900 / 1003) = 3 ∧
    (check_entry_conditions defaultConfig 100 90 100 100 cexProfile (1 / 5)).leverage ≠
      leverage_round_clamp (900 / 1003) := by
  refine ⟨?_, ?_, ?_, ?_, ?_⟩ <;>
    norm_num [check_entry_conditions, defaultConfig, cexProfile, neutral_signal, int_trunc,
      leverage_round_clamp, HYPERLIQUID_MIN_LEVERAGE, HYPERLIQUID_MAX_LEVERAGE, round_eq,
      abs_of_nonneg, abs_of_nonpos]

/-- Witness for the amended C4 at the same concrete LONG setup. -/
theorem c4_leverage_truncates_not_rounds_witness :
    ∃ rr, (check_entry_conditions defaultConfig 100 90 100 100 cexProfile (1 / 5)).risk_reward =
        some rr ∧
      (check_entry_conditions defaultConfig 100 90 100 100 cexProfile (1 / 5)).leverage =
        min 20 (max 2 (int_trunc (rr * 3))) ∧
      HYPERLIQUID_MIN_LEVERAGE ≤
        (check_entry_conditions defaultConfig 100 90 100 100 cexProfile (1 / 5)).leverage ∧
      (check_entry_conditions defaultConfig 100 90 100 100 cexProfile (1 / 5)).leverage ≤
        HYPERLIQUID_MAX_LEVERAGE ∧
      (rr ≤ 0 →
        (check_entry_conditions defaultConfig 100 90 100 100 cexProfile (1 / 5)).leverage =
          HYPERLIQUID_MIN_LEVERAGE) :=
  c4_leverage_truncates_not_rounds defaultConfig 100 90 100 100 (1 / 5) cexProfile
    (by
      norm_num [check_entry_conditions, defaultConfig, cexProfile, neutral_signal]
      decide)

/-- C6.  A LONG signal is produced iff the candle's low touched the value-area
low and the close lies back inside the value area; its entry level is "2σ"
exactly when the low reached the −2σ band and "1σ" otherwise; and its target
is `entry + tp_fraction × |poc − entry|`.  On the spec's scenario (POC 45100,
entry 44950 after touching `value_area_low = 44900`, 2σ band not reached,
`tp_fraction = 0.9`) the target is 45085 and the entry level "1σ". -/
theorem c6_long_entry_characterization :
    (∀ (cfg : StrategyConfig) (price low high prev atr : ℚ) (profile : ProfileQ),
      ((check_entry_conditions cfg price low high prev profile atr).direction = "LONG" ↔
        (low ≤ profile.value_area_low ∧ profile.value_area_low ≤ price ∧
          price ≤ profile.value_area_high)) ∧
      ((check_entry_conditions cfg price low high prev profile atr).direction = "LONG" →
        (check_entry_conditions cfg price low high prev profile atr).entry_level =
          some (if low ≤ profile.sigma_2_low then "2σ" else "1σ") ∧
        (check_entry_conditions cfg price low high prev profile atr).target_price =
          price + |profile.poc - price| * cfg.tp_fraction)) ∧
    ((check_entry_conditions defaultConfig 44950 44900 45000 44900 scenProfile (1 / 5)).direction =
        "LONG" ∧
      (check_entry_conditions defaultConfig 44950 44900 45000 44900 scenProfile (1 / 5)).target_price =
        45085 ∧
      (check_entry_conditions defaultConfig 44950 44900 45000 44900 scenProfile (1 / 5)).entry_level =
        some "1σ") := by
  constructor
  · intro cfg price low high prev atr profile
    unfold check_entry_conditions
    split_ifs with h1 h2 h3 h4 <;>
      first
        | exact ⟨⟨fun _ => h1, fun _ => rfl⟩, fun _ => ⟨rfl, rfl⟩⟩
        | exact ⟨⟨fun hd => absurd hd (by simp [neutral_signal]), fun hc => absurd hc h1⟩,
            fun hd => absurd hd (by simp [neutral_signal])⟩
  · refine ⟨?_, ?_, ?_⟩ <;>
      norm_num [check_entry_conditions, defaultConfig, scenProfile, neutral_signal,
        abs_of_nonneg, abs_of_nonpos]

/-- Witness for C6: the quantified part applied at the scenario input, with
its LONG hypothesis discharged concretely. -/
theorem c6_long_entry_characterization_witness :
    (check_entry_conditions defaultConfig 44950 44900 45000 44900 scenProfile (1 / 5)).entry_level =
      some (if (44900 : ℚ) ≤ scenProfile.sigma_2_low then "2σ" else "1σ") ∧
    (check_entry_conditions defaultConfig 44950 44900 45000 44900 scenProfile (1 / 5)).target_price =
      44950 + |scenProfile.poc - 44950| * defaultConfig.tp_fraction :=
  (c6_long_entry_characterization.1 defaultConfig 44950 44900 45000 44900 (1 / 5) scenProfile).2
    (by norm_num [check_entry_conditions, defaultConfig, scenProfile, neutral_signal])

/-- Python's `max(0, ·)` is nonnegative, also on a NaN-like argument. -/
theorem fmax0_nonneg (v : FV) : 0 ≤ fmax0 v := by
  cases v with
  | none => simp [fmax0]
  | some a => exact le_max_left 0 a

/-- A linear penalty score `if v < c then 100 else max(0, 100 − (v − c)·k)`
lies in `[0, 100]` for a nonnegative slope `k`, whatever the measured value
`v` (finite or NaN). -/
theorem penalty_lt_bounds (v : FV) (c k : ℚ) (hk : 0 ≤ k) :
    0 ≤ (if fblt v (some c) then (100 : ℚ)
      else fmax0 (fsub (some 100) (fmul (fsub v (some c)) (some k)))) ∧
    (if fblt v (some c) then (100 : ℚ)
      else fmax0 (fsub (some 100) (fmul (fsub v (some c)) (some k)))) ≤ 100 := by
  split
  · norm_num
  · next h =>
    cases v with
    | none => simp [fsub, fmul, fmax0]
    | some d =>
      have hd : c ≤ d := by
        by_contra hlt
        exact h (by simp only [fblt, decide_eq_true_eq]; linarith)
      refine ⟨fmax0_nonneg _, ?_⟩
      show max 0 (100 - (d - c) * k) ≤ 100
      exact max_le (by norm_num) (by nlinarith)

/-- The `≤`-guarded variant of `penalty_lt_bounds`. -/
theorem penalty_le_bounds (v : FV) (c k : ℚ) (hk : 0 ≤ k) :
    0 ≤ (if fble v (some c) then (100 : ℚ)
      else fmax0 (fsub (some 100) (fmul (fsub v (some c)) (some k)))) ∧
    (if fble v (some c) then (100 : ℚ)
      else fmax0 (fsub (some 100) (fmul (fsub v (some c)) (some k)))) ≤ 100 := by
  split
  · norm_num
  · next h =>
    cases v with
    | none => simp [fsub, fmul, fmax0]
    | some d =>
      have hd : c ≤ d := by
        by_contra hlt
        exact h (by simp only [fble, decide_eq_true_eq]; linarith)
      refine ⟨fmax0_nonneg _, ?_⟩
      show max 0 (100 - (d - c) * k) ≤ 100
      exact max_le (by norm_num) (by nlinarith)

/-- The absolute-distance penalty `max(0, 100 − |w|·k)` lies in `[0, 100]`
for a nonnegative slope. -/
theorem abs_penalty_bounds (w : FV) (k : ℚ) (hk : 0 ≤ k) :
    0 ≤ fmax0 (fsub (some 100) (fmul (fabs w) (some k))) ∧
    fmax0 (fsub (some 100) (fmul (fabs w) (some k))) ≤ 100 := by
  cases w with
  | none => simp [fabs, fsub, fmul, fmax0]
  | some a =>
    refine ⟨fmax0_nonneg _, ?_⟩
    show max 0 (100 - |a| * k) ≤ 100
    exact max_le (by norm_num) (by nlinarith [abs_nonneg a, mul_nonneg (abs_nonneg a) hk])

/-- Sub-score 1 is clamped to `[0, 100]`. -/
theorem dev_score_drift_bounds (data : List Candle) (poc : ℚ) :
    0 ≤ dev_score_drift data poc ∧ dev_score_drift data poc ≤ 100 := by
  unfold dev_score_drift
  split
  · exact penalty_lt_bounds _ _ _ (by norm_num)
  · norm_num

/-- Sub-score 2 is clamped to `[0, 100]`. -/
theorem dev_score_skew_bounds (sq : ℚ → ℚ) (data : List Candle) :
    0 ≤ dev_score_skew sq data ∧ dev_score_skew sq data ≤ 100 := by
  unfold dev_score_skew
  exact penalty_le_bounds _ _ _ (by norm_num)

/-- The `abs_penalty_bounds` clamp, guarded by an arbitrary Boolean
acceptance test. -/
theorem abs_penalty_if_bounds (b : Bool) (w : FV) (k : ℚ) (hk : 0 ≤ k) :
    0 ≤ (if b = true then (100 : ℚ)
      else fmax0 (fsub (some 100) (fmul (fabs w) (some k)))) ∧
    (if b = true then (100 : ℚ)
      else fmax0 (fsub (some 100) (fmul (fabs w) (some k)))) ≤ 100 := by
  cases b
  · simpa using abs_penalty_bounds w k hk
  · norm_num

/-- Sub-score 3 is clamped to `[0, 100]`. -/
theorem dev_score_kurt_bounds (data : List Candle) :
    0 ≤ dev_score_kurt data ∧ dev_score_kurt data ≤ 100 := by
  unfold dev_score_kurt
  exact abs_penalty_if_bounds _ _ _ (by norm_num)

/-- The value-area coverage score `if 65 ≤ w/n·100 then 100 else
w/n·100·(100/65)` lies in `[0, 100]` for natural counts. -/
theorem coverage_score_bounds (w n : ℕ) :
    0 ≤ (if (65 : ℚ) ≤ (w : ℚ) / (n : ℚ) * 100 then (100 : ℚ)
      else (w : ℚ) / (n : ℚ) * 100 * (100 / 65)) ∧
    (if (65 : ℚ) ≤ (w : ℚ) / (n : ℚ) * 100 then (100 : ℚ)
      else (w : ℚ) / (n : ℚ) * 100 * (100 / 65)) ≤ 100 := by
  have h0 : (0 : ℚ) ≤ (w : ℚ) / (n : ℚ) * 100 := by positivity
  split
  · norm_num
  · next h =>
    have hlt := not_le.mp h
    exact ⟨mul_nonneg h0 (by norm_num), by nlinarith⟩

/-- Sub-score 4 is clamped to `[0, 100]`. -/
theorem dev_score_va_bounds (data : List Candle) (mean std : FV) :
    0 ≤ dev_score_va data mean std ∧ dev_score_va data mean std ≤ 100 := by
  unfold dev_score_va
  exact coverage_score_bounds _ _

/-- C7.  For every slice, POC, mean and std — finite or NaN — each of the
four development sub-scores is clamped to `[0, 100]`, the development score
is their average and therefore also lies in `[0, 100]`, and the `developed`
flag holds exactly when the score is at least 70.  The embedding is a pure
function of the slice, so the same slice always yields the same result. -/
theorem c7_development_score_bounded (sq : ℚ → ℚ) (data : List Candle) (poc : ℚ)
    (mean std : FV) :
    (∀ s ∈ dev_scores sq data poc mean std, 0 ≤ s ∧ s ≤ 100) ∧
    (0 ≤ (check_development sq data poc mean std).2 ∧
      (check_development sq data poc mean std).2 ≤ 100) ∧
    ((check_development sq data poc mean std).1 = true ↔
      70 ≤ (check_development sq data poc mean std).2) := by
  have h1 := dev_score_drift_bounds data poc
  have h2 := dev_score_skew_bounds sq data
  have h3 := dev_score_kurt_bounds data
  have h4 := dev_score_va_bounds data mean std
  refine ⟨?_, ⟨?_, ?_⟩, ?_⟩
  · intro s hs
    simp only [dev_scores, List.mem_cons, List.not_mem_nil, or_false] at hs
    rcases hs with rfl | rfl | rfl | rfl
    exacts [h1, h2, h3, h4]
  · show (0 : ℚ) ≤ qsum (dev_scores sq data poc mean std) / (dev_scores sq data poc mean std).length
    simp only [dev_scores, qsum, List.foldl, List.length]
    push_cast
    linarith [h1.1, h2.1, h3.1, h4.1]
  · show qsum (dev_scores sq data poc mean std) / (dev_scores sq data poc mean std).length ≤ 100
    simp only [dev_scores, qsum, List.foldl, List.length]
    push_cast
    linarith [h1.2, h2.2, h3.2, h4.2]
  · simp [check_development]

/-- Invariant of the lookback fold: starting from accumulator `best` with
running score `bs`, either nothing beats `bs` and the accumulator is returned
(with every developed candidate's score at most `bs`), or the result is a
developed candidate in the list whose score strictly exceeds `bs`, strictly
exceeds every developed candidate before it, and is at least every developed
candidate after it. -/
theorem search_loop_spec (cands : List (Option ProfileQ)) :
    ∀ (best : Option ProfileQ) (bs : ℚ),
      (search_loop cands best bs = best ∧
        ∀ p, some p ∈ cands → p.developed = true → p.development_score ≤ bs) ∨
      (∃ r pre post, search_loop cands best bs = some r ∧ cands = pre ++ some r :: post ∧
        r.developed = true ∧ bs < r.development_score ∧
        (∀ q, some q ∈ pre → q.developed = true →
          q.development_score < r.development_score) ∧
        (∀ q, some q ∈ post → q.developed = true →
          q.development_score ≤ r.development_score)) := by
  induction cands with
  | nil =>
    intro best bs
    left
    exact ⟨rfl, by simp⟩
  | cons c rest ih =>
    intro best bs
    cases c with
    | none =>
      rcases ih best bs with ⟨heq, hall⟩ | ⟨r, pre, post, heq, hsplit, hdev, hlt, hpre, hpost⟩
      · left
        refine ⟨by simpa [search_loop] using heq, ?_⟩
        intro p hp hdp
        rcases List.mem_cons.mp hp with h | h
        · exact absurd h (by simp)
        · exact hall p h hdp
      · right
        refine ⟨r, none :: pre, post, by simpa [search_loop] using heq, by rw [hsplit]; rfl,
          hdev, hlt, ?_, hpost⟩
        intro q hq hdq
        rcases List.mem_cons.mp hq with h | h
        · exact absurd h (by simp)
        · exact hpre q h hdq
    | some p =>
      by_cases hc : p.developed = true ∧ bs < p.development_score
      · have hstep : search_loop (some p :: rest) best bs =
            search_loop rest (some p) p.development_score := by
          simp [search_loop, hc]
        rcases ih (some p) p.development_score with ⟨heq, hall⟩ |
          ⟨r, pre, post, heq, hsplit, hdev, hlt, hpre, hpost⟩
        · right
          refine ⟨p, [], rest, by rw [hstep, heq], rfl, hc.1, hc.2, by simp, ?_⟩
          intro q hq hdq
          exact hall q hq hdq
        · right
          refine ⟨r, some p :: pre, post, by rw [hstep, heq], by rw [hsplit]; rfl, hdev,
            hc.2.trans hlt, ?_, hpost⟩
          intro q hq hdq
          rcases List.mem_cons.mp hq with h | h
          · rcases Option.some_inj.mp h with rfl
            exact hlt
          · exact hpre q h hdq
      · have hstep : search_loop (some p :: rest) best bs = search_loop rest best bs := by
          simp [search_loop, hc]
        rcases ih best bs with ⟨heq, hall⟩ | ⟨r, pre, post, heq, hsplit, hdev, hlt, hpre, hpost⟩
        · left
          refine ⟨by rw [hstep, heq], ?_⟩
          intro q hq hdq
          rcases List.mem_cons.mp hq with h | h
          · rcases Option.some_inj.mp h with rfl
            exact le_of_not_lt fun hgt => hc ⟨hdq, hgt⟩
          · exact hall q h hdq
        · right
          refine ⟨r, some p :: pre, post, by rw [hstep, heq], by rw [hsplit]; rfl, hdev, hlt,
            ?_, hpost⟩
          intro q hq hdq
          rcases List.mem_cons.mp hq with h | h
          · rcases Option.some_inj.mp h with rfl
            exact lt_of_le_of_lt (le_of_not_lt fun hgt => hc ⟨hdq, hgt⟩) hlt
          · exact hpre q h hdq

/-- C5.  With the default configuration the lookback search evaluates exactly
the lookbacks 50, 60, …, 120 in ascending order.  Over any candidate list
whose developed profiles score at least 70 (as `_check_development`
guarantees), the search returns `None` exactly when no candidate is
developed; and when it returns a profile, that profile is developed, occurs
in the list, scores at least as high as every developed candidate, and
strictly higher than every developed candidate before it (the strict `>`
comparison keeps the earliest maximum).  When the search comes back empty,
`generate_signals` returns the NEUTRAL "Volume profile not developed"
rejection instead of any profile. -/
theorem c5_lookback_search_policy :
    (lookback_candidates defaultConfig = [50, 60, 70, 80, 90, 100, 110, 120]) ∧
    (∀ cands : List (Option ProfileQ),
      (∀ p, some p ∈ cands → p.developed = true → 70 ≤ p.development_score) →
      ((search_best cands = none ↔ ∀ p, some p ∈ cands → p.developed = false) ∧
        ∀ r, search_best cands = some r →
          r.developed = true ∧
          (∀ q, some q ∈ cands → q.developed = true →
            q.development_score ≤ r.development_score) ∧
          ∃ pre post, cands = pre ++ some r :: post ∧
            (∀ q, some q ∈ pre → q.developed = true →
              q.development_score < r.development_score))) ∧
    (∀ (cfg : StrategyConfig) (pf : List Candle → ℕ → Option ProfileQ) (df : List Candle) (a : ℚ),
      cfg.lookback_max ≤ df.length → calculate_atr df = some a →
      cfg.atr_min ≤ a → a ≤ cfg.atr_max →
      search_best ((lookback_candidates cfg).map (pf df)) = none →
      generate_signals cfg pf (some df) = some (neutral_signal cfg "Volume profile not developed")) := by
  refine ⟨by decide, ?_, ?_⟩
  · intro cands hscore
    rcases search_loop_spec cands none 0 with ⟨heq, hall⟩ |
      ⟨r, pre, post, heq, hsplit, hdev, hlt, hpre, hpost⟩
    · constructor
      · rw [search_best, heq]
        refine ⟨fun _ p hp => ?_, fun _ => rfl⟩
        by_contra hne
        have hd : p.developed = true := by
          cases hb : p.developed
          · exact absurd hb hne
          · rfl
        exact absurd (hscore p hp hd) (by linarith [hall p hp hd])
      · intro r hr
        rw [search_best, heq] at hr
        exact absurd hr (by simp)
    · constructor
      · rw [search_best, heq]
        refine ⟨fun h => absurd h (by simp), fun h => ?_⟩
        have : r.developed = false := h r (by rw [hsplit]; simp)
        rw [hdev] at this
        exact absurd this (by simp)
      · intro r' hr'
        rw [search_best, heq] at hr'
        rcases Option.some_inj.mp hr' with rfl
        refine ⟨hdev, ?_, pre, post, hsplit, hpre⟩
        intro q hq hdq
        rw [hsplit] at hq
        rcases List.mem_append.mp hq with h | h
        · exact (hpre q h hdq).le
        · rcases List.mem_cons.mp h with h | h
          · rcases Option.some_inj.mp h with rfl
            exact le_refl _
          · exact hpost q h hdq
  · intro cfg pf df a hlen hatr h1 h2 hsearch
    rw [generate_signals, hatr]
    simp [Nat.not_lt.mpr hlen, h1, h2, hsearch]

/-- Witness for C5: on the concrete candidate list `[None, devProfile]` the
score hypothesis holds and the search characterization applies; and on a
concrete in-band frame whose profile search finds nothing, `generate_signals`
returns the "Volume profile not developed" rejection. -/
theorem c5_lookback_search_policy_witness :
    (search_best [none, some devProfile] = none ↔
      ∀ p, some p ∈ ([none, some devProfile] : List (Option ProfileQ)) → p.developed = false) ∧
    generate_signals gateConfig (fun _ _ => none) (some band_df) =
      some (neutral_signal gateConfig "Volume profile not developed") :=
  ⟨(c5_lookback_search_policy.2.1 [none, some devProfile] (by
      intro p hp hd
      simp at hp
      subst hp
      norm_num [devProfile])).1,
   c5_lookback_search_policy.2.2 gateConfig (fun _ _ => none) band_df (1 / 5)
     (by norm_num [gateConfig, band_df])
     (by norm_num [calculate_atr, band_df, true_ranges, qsum, fdivF, fmul, List.replicate,
       List.getLast?, abs_of_nonneg, max_eq_left, max_eq_right])
     (by norm_num [gateConfig]) (by norm_num [gateConfig])
     (by norm_num [search_best, search_loop, lookback_candidates, gateConfig, pyRange,
       List.range'])⟩

/-- C8.  The volatility gate accepts exactly the ATR percentages inside the
closed band `[atr_min, atr_max]` — both boundaries included — and when the
gate rejects (including a NaN ATR), `generate_signals` returns the
"ATR outside optimal range" NEUTRAL signal whatever the injected profile
estimator is: no volume-profile computation or lookback search can influence
the result. -/
theorem c8_volatility_gate (cfg : StrategyConfig) (q : ℚ) (df : List Candle) :
    (atr_in_band cfg (some q) = true ↔ (cfg.atr_min ≤ q ∧ q ≤ cfg.atr_max)) ∧
    (cfg.lookback_max ≤ df.length → atr_in_band cfg (calculate_atr df) = false →
      ∀ pf, generate_signals cfg pf (some df) =
        some (neutral_signal cfg "ATR outside optimal range")) := by
  constructor
  · simp [atr_in_band, fble]
  · intro hlen hband pf
    rw [generate_signals]
    cases hatr : calculate_atr df with
    | none => simp [Nat.not_lt.mpr hlen]
    | some a =>
      rw [hatr] at hband
      have hq : ¬ (cfg.atr_min ≤ a ∧ a ≤ cfg.atr_max) := by
        simpa [atr_in_band, fble, not_and_or] using hband
      simp [Nat.not_lt.mpr hlen, hq]

/-- Witness for C8: the boundary value `atr_min` itself is accepted, and on a
flat frame (ATR percentage 0, below the band) the generator returns the ATR
rejection without consulting the profile estimator. -/
theorem c8_volatility_gate_witness :
    atr_in_band gateConfig (some (3 / 20)) = true ∧
    generate_signals gateConfig (fun _ _ => none) (some flat_df) =
      some (neutral_signal gateConfig "ATR outside optimal range") :=
  ⟨(c8_volatility_gate gateConfig (3 / 20) flat_df).1.mpr
      ⟨by norm_num [gateConfig], by norm_num [gateConfig]⟩,
   (c8_volatility_gate gateConfig (3 / 20) flat_df).2 (by norm_num [gateConfig, flat_df])
     (by norm_num [atr_in_band, fble, calculate_atr, flat_df, true_ranges, qsum, fdivF, fmul,
       List.replicate, List.getLast?, abs_of_nonneg, max_eq_left, max_eq_right, gateConfig])
     (fun _ _ => none)⟩

/-- Every outcome of `_check_entry_conditions` is either the waiting NEUTRAL
signal with leverage 1, or a directional signal whose clamped leverage lies
in `[2, 20]`. -/
theorem check_entry_leverage_cases (cfg : StrategyConfig)
    (price low high prev atr : ℚ) (profile : ProfileQ) :
    ((check_entry_conditions cfg price low high prev profile atr).direction = "NEUTRAL" ∧
      (check_entry_conditions cfg price low high prev profile atr).leverage = 1) ∨
    ((check_entry_conditions cfg price low high prev profile atr).direction ≠ "NEUTRAL" ∧
      2 ≤ (check_entry_conditions cfg price low high prev profile atr).leverage ∧
      (check_entry_conditions cfg price low high prev profile atr).leverage ≤ 20) := by
  unfold check_entry_conditions
  split_ifs <;>
    first
      | exact Or.inr ⟨by simp, (clamp_leverage_facts _).1, (clamp_leverage_facts _).2.1⟩
      | exact Or.inl ⟨rfl, rfl⟩

/-- C9 (amended).  Every signal `generate_signals` returns carries an integer
leverage in `[1, 20]`: directional (LONG/SHORT) signals are clamped into
`[min_leverage, max_leverage] = [2, 20]`, but NEUTRAL signals carry
leverage 1, below the configured minimum — contradicting the claim that
every signal, NEUTRAL included, lies within `[2, 20]`. -/
theorem c9_signal_leverage_bounds (cfg : StrategyConfig)
    (pf : List Candle → ℕ → Option ProfileQ) (df? : Option (List Candle)) (s : SignalQ)
    (h : generate_signals cfg pf df? = some s) :
    (1 ≤ s.leverage ∧ s.leverage ≤ HYPERLIQUID_MAX_LEVERAGE) ∧
    (s.direction ≠ "NEUTRAL" →
      HYPERLIQUID_MIN_LEVERAGE ≤ s.leverage ∧ s.leverage ≤ HYPERLIQUID_MAX_LEVERAGE) ∧
    (s.direction = "NEUTRAL" → s.leverage = 1) := by
  have hneutral : ∀ r : String, s = neutral_signal cfg r →
      (1 ≤ s.leverage ∧ s.leverage ≤ HYPERLIQUID_MAX_LEVERAGE) ∧
      (s.direction ≠ "NEUTRAL" →
        HYPERLIQUID_MIN_LEVERAGE ≤ s.leverage ∧ s.leverage ≤ HYPERLIQUID_MAX_LEVERAGE) ∧
      (s.direction = "NEUTRAL" → s.leverage = 1) := by
    rintro r rfl
    refine ⟨⟨by norm_num [neutral_signal], by norm_num [neutral_signal, HYPERLIQUID_MAX_LEVERAGE]⟩,
      fun hd => absurd rfl hd, fun _ => rfl⟩
  cases df? with
  | none => simp [generate_signals] at h
  | some df =>
    rw [generate_signals] at h
    split_ifs at h with hlen
    split at h
    · rcases Option.some_inj.mp h with rfl
      exact hneutral _ rfl
    · split_ifs at h with hband
      · split at h
        · rcases Option.some_inj.mp h with rfl
          exact hneutral _ rfl
        · split at h
          · rcases Option.some_inj.mp h with rfl
            rcases check_entry_leverage_cases cfg _ _ _ _ _ _ with ⟨hd, hl⟩ | ⟨hd, hl2, hl20⟩
            · refine ⟨⟨by rw [hl], by rw [hl]; norm_num [HYPERLIQUID_MAX_LEVERAGE]⟩,
                fun hd' => absurd hd hd', fun _ => hl⟩
            · refine ⟨⟨by linarith [hl2], hl20⟩, fun _ => ⟨hl2, hl20⟩, fun hd' => absurd hd' hd⟩
          · exact absurd h (by simp)
      · rcases Option.some_inj.mp h with rfl
        exact hneutral _ rfl

/-- Counterexample to C9 as stated: `generate_signals` really does return
NEUTRAL signals (here the ATR rejection on a flat frame), and a NEUTRAL
signal's leverage is the hard-coded 1 of `_neutral_signal`, strictly below
`HYPERLIQUID_MIN_LEVERAGE = 2` — so not every returned signal has leverage
in `[min_leverage, max_leverage]`. -/
theorem c9_neutral_leverage_counterexample :
    generate_signals gateConfig (fun _ _ => none) (some flat_df) =
      some (neutral_signal gateConfig "ATR outside optimal range") ∧
    (neutral_signal gateConfig "ATR outside optimal range").direction = "NEUTRAL" ∧
    (neutral_signal gateConfig "ATR outside optimal range").leverage = 1 ∧
    ¬ (HYPERLIQUID_MIN_LEVERAGE ≤
        (neutral_signal gateConfig "ATR outside optimal range").leverage) := by
  refine ⟨?_, rfl, rfl, by norm_num [neutral_signal, HYPERLIQUID_MIN_LEVERAGE]⟩
  rw [generate_signals]
  have hatr : calculate_atr flat_df = some 0 := by
    norm_num [calculate_atr, flat_df, true_ranges, qsum, fdivF, fmul, List.replicate,
      List.getLast?, abs_of_nonneg, max_eq_left, max_eq_right]
  rw [hatr]
  norm_num [gateConfig, flat_df]

/-- Witness for the amended C9, at the concrete NEUTRAL signal produced by
the ATR gate on a flat frame. -/
theorem c9_signal_leverage_bounds_witness :
    1 ≤ (neutral_signal gateConfig "ATR outside optimal range").leverage ∧
    (neutral_signal gateConfig "ATR outside optimal range").leverage ≤
      HYPERLIQUID_MAX_LEVERAGE :=
  (c9_signal_leverage_bounds gateConfig (fun _ _ => none) (some flat_df)
      (neutral_signal gateConfig "ATR outside optimal range")
      (by
        rw [generate_signals]
        have hatr : calculate_atr flat_df = some 0 := by
          norm_num [calculate_atr, flat_df, true_ranges, qsum, fdivF, fmul, List.replicate,
            List.getLast?, abs_of_nonneg, max_eq_left, max_eq_right]
        rw [hatr]
        norm_num [gateConfig, flat_df])).1

/-- C3.  The claim says one scan cycle never emits two entry signals for the
same symbol.  The per-symbol open-position check does hold: a symbol with an
open position is skipped entirely.  But `StrategyAgent.run` appends the
symbol's best signal to `all_signals` twice (source lines 106 and 115), so a
single cycle scanning one symbol with one non-NEUTRAL signal emits that
entry signal twice — each copy is then separately confirmed and executed by
the trading agent, which performs no deduplication. -/
theorem c3_scan_emits_duplicate_signals :
    run_scan (fun _ => false) (fun _ => [some dup_signal]) ["BTC"] =
      [dup_signal, dup_signal] ∧
    dup_signal.direction ≠ "NEUTRAL" ∧ dup_signal.symbol = "BTC" ∧
    (run_scan (fun _ => true) (fun _ => [some dup_signal]) ["BTC"] = []) := by
  refine ⟨rfl, by decide, rfl, rfl⟩

/-- Witness for C7: the bound applied to the drift sub-score of a concrete
one-candle slice, and the development decision at that slice. -/
theorem c7_development_score_bounded_witness :
    (0 ≤ dev_score_drift [⟨101, 99, 100, 5⟩] 100 ∧
      dev_score_drift [⟨101, 99, 100, 5⟩] 100 ≤ 100) ∧
    ((check_development id [⟨101, 99, 100, 5⟩] 100 (some 100) (some 1)).1 = true ↔
      70 ≤ (check_development id [⟨101, 99, 100, 5⟩] 100 (some 100) (some 1)).2) :=
  ⟨(c7_development_score_bounded id [⟨101, 99, 100, 5⟩] 100 (some 100) (some 1)).1
      (dev_score_drift [⟨101, 99, 100, 5⟩] 100) (by simp [dev_scores]),
   (c7_development_score_bounded id [⟨101, 99, 100, 5⟩] 100 (some 100) (some 1)).2.2⟩
